import Mathlib

/-!
Verification of the crag-web connection dispatch engine: a shallow embedding
of src/crag-web/src/request.rs, response.rs and server.rs, together with
theorems about request parsing, routing, response serialization and the
builder. Rust strings are modelled as Lean strings, byte streams as lists of
characters, and the fallible functions (anyhow::Result) as Except with the
source's error message strings.
-/

namespace CragWeb

/-- The request model of request.rs: GET carries a path, POST a path and a
body. The Rust enum derives Eq, PartialEq and Hash structurally, over every
field; DecidableEq gives the corresponding propositional equality. -/
inductive Request where
  | GET (path : String)
  | POST (path : String) (body : String)
deriving DecidableEq

/-- Tokenizer behind Rust str::split_whitespace: walk the characters,
accumulating the current token (reversed) and emitting it at each whitespace
run; empty tokens are never produced. -/
def splitWhitespaceAux : List Char → List Char → List String
  | [], [] => []
  | [], acc => [String.mk acc.reverse]
  | c :: rest, acc =>
    if c.isWhitespace then
      match acc with
      | [] => splitWhitespaceAux rest []
      | _ => String.mk acc.reverse :: splitWhitespaceAux rest []
    else splitWhitespaceAux rest (c :: acc)

/-- Rust str::split_whitespace on a string: the maximal non-empty runs of
non-whitespace characters, in order. -/
def splitWhitespace (s : String) : List String :=
  splitWhitespaceAux s.toList []

/-- Request::parse from request.rs at the token level: the Rust code draws
method, URI and protocol from the whitespace-split iterator in that order,
checks the protocol literal, rejects leftover tokens, and finally matches
the method. Error values are the anyhow message strings of the source. -/
def parse_tokens : List String → Except String Request
  | [] => .error "No method found"
  | [_] => .error "No URI found"
  | [_, _] => .error "No protocol found"
  | method :: uri :: protocol :: rest =>
    if protocol ≠ "HTTP/1.1" then
      .error "Server can only work with HTTP/1.1"
    else if rest ≠ [] then
      .error "Invalid request line: extra values after parts"
    else if method = "GET" then .ok (.GET uri)
    else if method = "POST" then .ok (.POST uri "")
    else .error ("Invalid method " ++ method)

/-- Request::parse: split the request line on whitespace and parse the
tokens. -/
def Request.parse (request_line : String) : Except String Request :=
  parse_tokens (splitWhitespace request_line)

/-- Request::add_body from request.rs: overwrite the body of a POST request;
on any other variant the call is a silent no-op (the Rust code mutates in
place, modelled here functionally). -/
def Request.add_body (self : Request) (body : String) : Request :=
  match self with
  | .POST path _ => .POST path body
  | r => r

/-- The response model of response.rs. -/
inductive Response where
  | Ok (body : String)
  | NotFound (msg : String)

/-- The constant HTML_TYPE of response.rs; note it already contains the
header name. -/
def HTML_TYPE : String := "Content-Type: text/html"

/-- Modelled from the spec: the fixed NotFound body is the file
static/html/404.html embedded at build time, which is not among the sources;
the spec describes it only as "a static HTML payload embedded at build
time", so its contents are modelled as an arbitrary fixed HTML string. None
of the theorems below depends on its value. -/
def html404 : String := "<html><body><h1>404 Not Found</h1></body></html>"

/-- Rust str::len: the UTF-8 byte length of a string. -/
def strLen (s : String) : Nat := s.utf8ByteSize

/-- to_output from response.rs. The format string writes a literal
"Content-Type: " in front of the content_type argument, and the length
header counts the bytes of the body. -/
def to_output (status content_type body : String) : String :=
  status ++ "\r\nContent-Type: " ++ content_type ++ "\r\nContent-Length: "
    ++ toString (strLen body) ++ "\r\n\r\n" ++ body

/-- The From<Response> for Vec<u8> impl of response.rs: the serialized wire
bytes, as the string whose UTF-8 bytes String::into_bytes returns. Ok uses
the 200 status line and the given body; NotFound discards its payload and
uses the 404 status line with the fixed embedded body. -/
def Response.toBytes : Response → String
  | .Ok body => to_output "HTTP/1.0 200 OK" HTML_TYPE body
  | .NotFound _ => to_output "HTTP/1.0 404 Not Found" HTML_TYPE html404

/-- BufRead::read_line: the characters up to and including the first
newline, or all of them if no newline remains (at end of input the line is
empty), together with the unconsumed rest of the stream. -/
def read_line : List Char → String × List Char
  | [] => ("", [])
  | c :: rest =>
    if c = '\n' then (String.mk [c], rest)
    else
      let (l, r) := read_line rest
      (String.mk (c :: l.toList), r)

/-- The header-reading loop of read_and_parse_request in server.rs: read
lines until one is empty, "\r" or "\r\n", collecting the earlier ones. The
loop consumes at least one character per kept line, so a fuel of one more
than the stream length (supplied below) always suffices. -/
def read_header_lines : Nat → List Char → List String × List Char
  | 0, s => ([], s)
  | fuel + 1, s =>
    let (line, rest) := read_line s
    if line = "" ∨ line = "\r" ∨ line = "\r\n" then ([], rest)
    else
      let (ls, r) := read_header_lines fuel rest
      (line :: ls, r)

/-- Rust str::trim: drop whitespace from both ends. -/
def trimChars (s : String) : String :=
  String.mk (((s.toList.dropWhile Char.isWhitespace).reverse.dropWhile
    Char.isWhitespace).reverse)

/-- Rust str::split(sep): the pieces between occurrences of the separator,
empty pieces included. -/
def splitOnCharAux (sep : Char) : List Char → List Char → List String
  | [], acc => [String.mk acc.reverse]
  | c :: rest, acc =>
    if c = sep then String.mk acc.reverse :: splitOnCharAux sep rest []
    else splitOnCharAux sep rest (c :: acc)

def splitOnChar (sep : Char) (s : String) : List String :=
  splitOnCharAux sep s.toList []

/-- Rust str::starts_with on a string prefix. -/
def strStartsWith (s pre : String) : Bool :=
  pre.toList.isPrefixOf s.toList

/-- Rust str::parse::<usize> restricted to the decimal digit strings it
accepts (its additional tolerance for a leading plus sign is never exercised
by a Content-Length value and is not modelled). -/
def parseUsize (s : String) : Option Nat :=
  let cs := s.toList
  if cs ≠ [] ∧ cs.all (fun c => c.isDigit) then
    some (cs.foldl (fun a c => a * 10 + (c.toNat - 48)) 0)
  else none

/-- parse_request from server.rs: the request parsed from the first header
line, paired with the Content-Length recovered from the remaining header
lines — for POST, the first line with the "Content-Length:" prefix is
trimmed, split on ':', and its second piece trimmed and parsed, any failure
defaulting to 0; GET always gets 0. -/
def parse_request (lines : List String) : Except String (Request × Nat) :=
  match lines with
  | [] => .error "No request line found"
  | first_line :: rest => do
    let req ← Request.parse first_line
    let content_length :=
      match req with
      | .GET _ => 0
      | .POST _ _ =>
        match rest.find? (fun l => strStartsWith l "Content-Length:") with
        | none => 0
        | some l =>
          match (splitOnChar ':' (trimChars l)).get? 1 with
          | none => 0
          | some v => (parseUsize (trimChars v)).getD 0
    return (req, content_length)

/-- read_and_parse_request from server.rs: read the header lines from the
stream and parse them. The body-reading step of the source is commented out
(the block after the lines are parsed), so the Content-Length is computed
and then discarded, no bytes after the end-of-headers sentinel are
consumed, and the request is returned exactly as parsed — in particular a
POST keeps the empty body Request::parse gave it. -/
def read_and_parse_request (s : List Char) : Except String Request := do
  let (lines, _rest) := read_header_lines (s.length + 1) s
  let (req, _content_length) ← parse_request lines
  return req

/-- A handler: Request -> anyhow::Result<Response>, from handler.rs. -/
abbrev Handler := Request → Except String Response

/-- The routing table HashMap<Request, Handler> of server.rs, modelled as an
association list; HashMap's invariant that each key occurs once appears as a
Nodup hypothesis where it matters. -/
abbrev HandlerMap := List (Request × Handler)

/-- HashMap::get on the modelled table. -/
def hm_get (m : HandlerMap) (req : Request) : Option Handler :=
  (m.find? (fun e => decide (e.1 = req))).map Prod.snd

/-- The routing step of handle_connection in server.rs: exact lookup of the
parsed request in the table, the registered error handler when absent. -/
def dispatch (valid_handlers : HandlerMap) (error_handler : Handler)
    (req : Request) : Except String Response :=
  match hm_get valid_handlers req with
  | some h => h req
  | none => error_handler req

/-- handle_connection from server.rs: parse the request from the stream
(wrapping a parse failure in the source's message), dispatch it, and return
the response bytes written to the stream; a handler failure propagates. -/
def handle_connection (handlers : HandlerMap) (error_handler : Handler)
    (input : List Char) : Except String String :=
  match read_and_parse_request input with
  | .error e => .error ("Error parsing request: " ++ e)
  | .ok req =>
    match dispatch handlers error_handler req with
    | .error e => .error e
    | .ok resp => .ok resp.toBytes

/-- The fixed response the error boundary in Server::run writes when
handle_connection fails: a 500 status line and no body. -/
def http500 : String := "HTTP/1.1 500 Internal Server Error\r\n\r\n"

/-- The bytes one connection receives, including the error boundary of the
worker closure in Server::run: the bytes handle_connection wrote on success,
the fixed 500 response on any failure. -/
def connection_output (handlers : HandlerMap) (error_handler : Handler)
    (input : List Char) : String :=
  match handle_connection handlers error_handler input with
  | .ok out => out
  | .error _ => http500

/-- ServerBuilder from server.rs: the handlers registered so far and the
optional error handler. -/
structure ServerBuilder where
  handlers : HandlerMap
  error_handler : Option Handler

/-- The externally visible construction effects of ServerBuilder::finalize,
recorded in the order the source performs them: binding the TCP listener,
then building the thread pool. -/
inductive BuildAction where
  | bindSocket
  | buildPool
deriving DecidableEq

/-- The finalized Server of server.rs: the frozen table, the mandatory error
handler, and the pool size. -/
structure Server where
  handlers : HandlerMap
  error_handler : Handler
  pool_size : Nat

/-- Server::build: the empty builder. -/
def Server.build : ServerBuilder := { handlers := [], error_handler := none }

/-- HashMap::insert: bind the key, replacing any previous binding. -/
def hm_insert (m : HandlerMap) (r : Request) (h : Handler) : HandlerMap :=
  (r, h) :: m.filter (fun e => !decide (e.1 = r))

/-- ServerBuilder::register_handler. -/
def ServerBuilder.register_handler (self : ServerBuilder) (r : Request)
    (h : Handler) : ServerBuilder :=
  { self with handlers := hm_insert self.handlers r h }

/-- ServerBuilder::register_error_handler: fails when one is registered
already, otherwise records the handler. -/
def ServerBuilder.register_error_handler (self : ServerBuilder)
    (h : Handler) : Except String ServerBuilder :=
  match self.error_handler with
  | some _ => .error "Error handler already registered"
  | none => .ok { self with error_handler := some h }

/-- ServerBuilder::finalize: the source checks for a registered error
handler before anything else and bails with the message below; only then
does it resolve the address, bind the listener and build the pool. Those
I/O steps are abstracted as recorded actions (their own failure modes are
outside the model); the result pairs the outcome with the actions
performed, in order. -/
def ServerBuilder.finalize (self : ServerBuilder) (pool_size : Nat) :
    Except String Server × List BuildAction :=
  match self.error_handler with
  | none => (.error "No handler for 404 errors", [])
  | some eh =>
    (.ok { handlers := self.handlers, error_handler := eh,
           pool_size := pool_size },
     [.bindSocket, .buildPool])

/-- Two entries of a table whose keys are distinct and whose first
components agree are the same entry. -/
theorem hm_entry_unique (a b : Request × Handler) (hab : a.1 = b.1) :
    ∀ m : HandlerMap, (m.map Prod.fst).Nodup → a ∈ m → b ∈ m → a = b := by
  intro m
  induction m with
  | nil => intro _ ha; cases ha
  | cons x t ih =>
    intro hnd ha hb
    rw [List.map_cons, List.nodup_cons] at hnd
    rcases List.mem_cons.mp ha with rfl | ha1
    · rcases List.mem_cons.mp hb with rfl | hb1
      · rfl
      · exfalso
        apply hnd.1
        rw [hab]
        exact List.mem_map_of_mem Prod.fst hb1
    · rcases List.mem_cons.mp hb with rfl | hb1
      · exfalso
        apply hnd.1
        rw [← hab]
        exact List.mem_map_of_mem Prod.fst ha1
      · exact ih hnd.2 ha1 hb1

/-- C1: on a stream that begins with a well-formed POST request line,
carries a Content-Length of 3 and holds exactly 3 body bytes after the
end-of-headers sentinel, read_and_parse_request returns the request with the
EMPTY body: the Content-Length is parsed (second conjunct) but the body is
never read or attached, because that step of the source is commented out.
The claim that the returned body consists of the 3 stream bytes fails. -/
theorem c1_post_body_never_attached :
    read_and_parse_request
        ("POST /x HTTP/1.1\r\nContent-Length: 3\r\n\r\nabc".toList)
      = .ok (Request.POST "/x" "")
    ∧ parse_request ["POST /x HTTP/1.1\r\n", "Content-Length: 3\r\n"]
      = .ok (Request.POST "/x" "", 3)
    ∧ strLen "" ≠ 3 := by
  refine ⟨by rfl, by rfl, by decide⟩

/-- C2 counterexample: the derived structural equality of Request compares
the POST body, so POST("/x", "a") and POST("/x", "b") are not equal,
refuting the claim that requests to the same path with different bodies are
equal. -/
theorem c2_post_body_in_equality :
    ¬ (Request.POST "/x" "a" = Request.POST "/x" "b") := by
  decide

/-- C2 amended: Request identity includes the POST body — POST(p, a) and
POST(p, b) are equal exactly when the bodies are equal, so only POSTs
carrying the same body are the same routing key. -/
theorem c2_post_eq_iff_body_eq (p a b : String) :
    Request.POST p a = Request.POST p b ↔ a = b := by
  simp

/-- C4 counterexample: a request line splitting into four whitespace
tokens whose third token is not HTTP/1.1 fails with the
unsupported-protocol error, not the malformed-request-line error, because
the source checks the protocol before rejecting extra tokens; this refutes
the claim that every line with more than three tokens fails with the
malformed-request-line error. -/
theorem c4_four_tokens_bad_protocol :
    (splitWhitespace "GET / HTTP/1.0 x").length = 4
    ∧ Request.parse "GET / HTTP/1.0 x"
      = .error "Server can only work with HTTP/1.1"
    ∧ "Server can only work with HTTP/1.1"
      ≠ "Invalid request line: extra values after parts" := by
  refine ⟨by rfl, by rfl, by decide⟩

/-- C4 amended: parsing "" fails with the missing-method error, "GET" with
missing-URI, "GET /" with missing-protocol, "GET / HTTP/1.0" with
unsupported-protocol, "FOO / HTTP/1.1" with unsupported-method (each error
being the source's message string); and a request line splitting into more
than three whitespace tokens fails with the malformed-request-line error
when its third token is HTTP/1.1 (otherwise the unsupported-protocol check,
made first, reports that error instead). -/
theorem c4_request_line_errors :
    Request.parse "" = .error "No method found"
    ∧ Request.parse "GET" = .error "No URI found"
    ∧ Request.parse "GET /" = .error "No protocol found"
    ∧ Request.parse "GET / HTTP/1.0"
      = .error "Server can only work with HTTP/1.1"
    ∧ Request.parse "FOO / HTTP/1.1" = .error "Invalid method FOO"
    ∧ ∀ s : String, 3 < (splitWhitespace s).length →
        (splitWhitespace s).get? 2 = some "HTTP/1.1" →
        Request.parse s
          = .error "Invalid request line: extra values after parts" := by
  refine ⟨by rfl, by rfl, by rfl, by rfl, by rfl, ?_⟩
  intro s hlen hthird
  unfold Request.parse
  cases hts : splitWhitespace s with
  | nil => rw [hts] at hlen; cases hlen
  | cons m t1 =>
    cases t1 with
    | nil => rw [hts] at hlen; simp at hlen
    | cons u t2 =>
      cases t2 with
      | nil => rw [hts] at hlen; simp at hlen
      | cons pr t3 =>
        cases t3 with
        | nil => rw [hts] at hlen; simp at hlen
        | cons d t4 =>
          rw [hts] at hthird
          simp [List.get?] at hthird
          simp [parse_tokens, hthird]

/-- C6: serializing NotFound(s) yields the same byte buffer for every
carried string s — the payload is discarded, never emitted — and that
buffer is the 404 status line followed by the headers and the fixed
embedded HTML body with that body's byte length as Content-Length. -/
theorem c6_notfound_serialization_fixed (s : String) :
    Response.toBytes (Response.NotFound s)
      = Response.toBytes (Response.NotFound "")
    ∧ Response.toBytes (Response.NotFound s)
      = "HTTP/1.0 404 Not Found" ++ "\r\nContent-Type: " ++ HTML_TYPE
        ++ "\r\nContent-Length: " ++ toString (strLen html404)
        ++ "\r\n\r\n" ++ html404 := by
  exact ⟨rfl, rfl⟩

/-- C7: serializing Ok(body) yields the 200 status line, a Content-Length
equal to the byte length of the body (5 for "hello"), and the body itself —
but the Content-Type header line is "Content-Type: Content-Type: text/html",
with the header name doubled, because to_output prepends "Content-Type: "
to the HTML_TYPE constant that already contains it. The claimed byte string
with the single header name is not produced. -/
theorem c7_ok_serialization_duplicated_content_type :
    Response.toBytes (Response.Ok "hello")
      = "HTTP/1.0 200 OK\r\nContent-Type: Content-Type: text/html\r\nContent-Length: 5\r\n\r\nhello"
    ∧ ∀ body : String, Response.toBytes (Response.Ok body)
        = "HTTP/1.0 200 OK\r\nContent-Type: Content-Type: text/html\r\nContent-Length: "
          ++ toString (strLen body) ++ "\r\n\r\n" ++ body := by
  constructor
  · rfl
  · intro body
    show "HTTP/1.0 200 OK" ++ "\r\nContent-Type: " ++ HTML_TYPE
        ++ "\r\nContent-Length: " ++ toString (strLen body)
        ++ "\r\n\r\n" ++ body = _
    have hpre : "HTTP/1.0 200 OK" ++ "\r\nContent-Type: " ++ HTML_TYPE
        ++ "\r\nContent-Length: "
        = "HTTP/1.0 200 OK\r\nContent-Type: Content-Type: text/html\r\nContent-Length: " := by
      rfl
    rw [hpre]

/-- C3: dispatch is exact match with fallback — when the routing table's
keys are distinct (the HashMap invariant) and the parsed request is
registered, its handler is invoked on the request; when the request is not
a key of the table, the registered error handler is invoked on it. -/
theorem c3_dispatch_exact_match_with_fallback (handlers : HandlerMap)
    (error_handler : Handler) (req : Request) :
    ((handlers.map Prod.fst).Nodup →
      ∀ h : Handler, (req, h) ∈ handlers →
        dispatch handlers error_handler req = h req)
    ∧ ((∀ h : Handler, (req, h) ∉ handlers) →
        dispatch handlers error_handler req = error_handler req) := by
  constructor
  · intro hnd h hmem
    cases hfind : handlers.find? (fun e => decide (e.1 = req)) with
    | none =>
      exfalso
      have hnp := List.find?_eq_none.mp hfind (req, h) hmem
      simp at hnp
    | some e =>
      have h1 : e.1 = req := by
        have h0 := List.find?_some hfind
        simpa using h0
      have h2 : e ∈ handlers := List.mem_of_find?_eq_some hfind
      have h4 : e = (req, h) :=
        hm_entry_unique e (req, h) h1 handlers hnd h2 hmem
      simp [dispatch, hm_get, hfind, h4]
  · intro hnone
    have hfind : handlers.find? (fun e => decide (e.1 = req)) = none := by
      rw [List.find?_eq_none]
      rintro ⟨r1, h1⟩ he
      intro hdec
      exact hnone h1 ((of_decide_eq_true hdec : r1 = req) ▸ he)
    simp [dispatch, hm_get, hfind]

/-- C5: handle_connection fails exactly when the request fails to parse or
the dispatched handler returns an error, and in every such case the error
boundary of Server::run writes the fixed 500 status line with empty body to
that connection (connection_output); the worker closure swallows the error,
so neither failure propagates past the boundary. -/
theorem c5_error_boundary_500 (handlers : HandlerMap)
    (error_handler : Handler) (input : List Char) :
    ((∃ e, handle_connection handlers error_handler input = .error e) ↔
      ((∃ e, read_and_parse_request input = .error e)
        ∨ (∃ req e, read_and_parse_request input = .ok req
            ∧ dispatch handlers error_handler req = .error e)))
    ∧ (∀ e, handle_connection handlers error_handler input = .error e →
        connection_output handlers error_handler input = http500) := by
  constructor
  · cases hp : read_and_parse_request input with
    | error e =>
      constructor
      · intro _
        exact Or.inl ⟨e, rfl⟩
      · intro _
        exact ⟨"Error parsing request: " ++ e, by
          simp [handle_connection, hp]⟩
    | ok req =>
      cases hd : dispatch handlers error_handler req with
      | error e =>
        constructor
        · intro _
          exact Or.inr ⟨req, e, rfl, hd⟩
        · intro _
          exact ⟨e, by simp [handle_connection, hp, hd]⟩
      | ok resp =>
        constructor
        · rintro ⟨e, he⟩
          simp [handle_connection, hp, hd] at he
        · rintro (⟨e, he⟩ | ⟨req2, e, hr, he⟩)
          · simp at he
          · cases hr
            rw [hd] at he
            simp at he
  · intro e he
    unfold connection_output
    rw [he]

/-- C8: construction enforces exactly one fallback handler — registering an
error handler on a builder that already holds one fails with the source's
message, and finalizing a builder with no error handler fails before any
construction effect: the action trace is empty, so no socket is bound and
no worker pool is built. -/
theorem c8_single_error_handler_enforced (b : ServerBuilder) (h : Handler)
    (n : Nat) :
    ((∃ h0, b.error_handler = some h0) →
      b.register_error_handler h = .error "Error handler already registered")
    ∧ (b.error_handler = none →
        (b.finalize n).1 = .error "No handler for 404 errors"
        ∧ (b.finalize n).2 = []) := by
  constructor
  · rintro ⟨h0, he⟩
    simp [ServerBuilder.register_error_handler, he]
  · intro he
    simp [ServerBuilder.finalize, he]

/-- C10: add_body changes only the body field of a POST: on GET(p) it is the
identity, and on POST(p, b) it yields POST(p, s), preserving method tag and
path. -/
theorem c10_add_body_frame (p b s : String) :
    (Request.GET p).add_body s = Request.GET p
    ∧ (Request.POST p b).add_body s = Request.POST p s := by
  exact ⟨rfl, rfl⟩

end CragWeb
